import Mathlib

/-!
Verification development for the EmbeddedToolchain-MCP repository
(an MCP stdio server exposing serial-port I/O, ST-Link / OpenOCD / J-Link
debug-probe control, build invocation and project helpers).

The definitions below are a shallow embedding of the JavaScript modules:
  * serial.js   — single active serial port: openPort / write / read / closePort
  * stlink.js   — ST-Link CLI wrappers: parseIntHexOrDec, flashFirmware,
                  readRegister, writeRegister, resetDevice, startDebug, stopDebug
  * compiler.js — compile (make / STM32CubeIDE)
  * project.js  — gitCommit / gitDiff

Modelling conventions:
  * bytes are `Nat` (0..255); JS Buffers are `List Nat`;
  * JS strings are Lean `String` (Unicode scalar values; the UTF-16 lone
    surrogate corner of JS strings is not exercised by any claim);
  * interaction with the outside world (the serialport library, spawned
    child processes) is passed in explicitly as oracle arguments: e.g. the
    error reported by the underlying `port.open`/`port.close` callbacks, or
    the exit outcome of an external tool invocation;
  * async functions that throw are modelled as `Except`-valued functions;
    the module-level mutable state is threaded explicitly, so a function
    returns `State × Except Error Result`, and the returned state equals the
    input state exactly when the source performs no assignment on that path.
-/

deriving instance DecidableEq for Except

/-! ## JS primitive models -/

/-- JS `String.prototype.trim`: leading and trailing whitespace removed
(the ASCII whitespace set relevant to the claims; structural so that the
kernel can evaluate it). -/
def jsTrim (s : String) : String :=
  String.mk
    (((s.toList.dropWhile Char.isWhitespace).reverse.dropWhile
        Char.isWhitespace).reverse)

/-- JS `String.prototype.toLowerCase` (ASCII-relevant part). -/
def jsToLower (s : String) : String := String.mk (s.toList.map Char.toLower)

/-- JS `String.prototype.startsWith`. -/
def jsStartsWith (s pre : String) : Bool := pre.toList.isPrefixOf s.toList

/-- Value of a character as a digit in the given radix (JS `parseInt` digit set:
`0-9`, `a-z`, `A-Z`), or `none` when the character is not a valid digit. -/
def digitValIn (radix : Nat) (c : Char) : Option Nat :=
  let v : Option Nat :=
    if '0' ≤ c ∧ c ≤ '9' then some (c.toNat - '0'.toNat)
    else if 'a' ≤ c ∧ c ≤ 'z' then some (c.toNat - 'a'.toNat + 10)
    else if 'A' ≤ c ∧ c ≤ 'Z' then some (c.toNat - 'A'.toNat + 10)
    else none
  match v with
  | some d => if d < radix then some d else none
  | none => none

/-- Accumulate the longest prefix of valid digits.  The accumulator is `none`
while no digit has been consumed (JS `parseInt` returns NaN when the digit
run is empty). -/
def parseDigitsAux (radix : Nat) : List Char → Option Nat → Option Nat
  | [], acc => acc
  | c :: cs, acc =>
    match digitValIn radix c with
    | some d => parseDigitsAux radix cs (some ((acc.getD 0) * radix + d))
    | none => acc

/-- JS `parseInt(s, radix)` for radix 10 and 16: skip whitespace, optional
sign, for radix 16 an optional `0x`/`0X` prefix, then the longest run of
valid digits; `none` models `NaN` (empty digit run). -/
def jsParseInt (s : String) (radix : Nat) : Option Int :=
  let cs := (jsTrim s).toList
  let (sign, cs) : Int × List Char :=
    match cs with
    | '-' :: rest => (-1, rest)
    | '+' :: rest => (1, rest)
    | _ => (1, cs)
  let cs :=
    if radix = 16 then
      match cs with
      | '0' :: 'x' :: rest => rest
      | '0' :: 'X' :: rest => rest
      | _ => cs
    else cs
  (parseDigitsAux radix cs none).map (fun n => sign * (n : Int))

/-- JS `x >>> 0` on an integral number: reduction modulo `2^32`. -/
def toUint32 (i : Int) : Nat := (i % (2 ^ 32 : Int)).toNat

/-- A JS value as far as `typeof` dispatch in `parseIntHexOrDec` cares:
a number (modelled integral), a string, or anything else. -/
inductive JsVal where
  | num (n : Int)
  | str (s : String)
  | other
  deriving DecidableEq

/-! ## Serial module (serial.js) -/

namespace Serial

/-- The serialport handle as far as the module observes it (`port.isOpen`). -/
structure PortHandle where
  isOpen : Bool
  deriving DecidableEq

/-- Module-level state of serial.js: `activePort`, `activePortName`,
`rxBuffer`. -/
structure SerialState where
  activePort : Option PortHandle
  activePortName : String
  rxBuffer : List Nat
  deriving DecidableEq

/-- `activePort && activePort.isOpen` — the open-session test used by
`ensureOpen`, `openPort` and `closePort`. -/
def sessionOpen (st : SerialState) : Bool :=
  match st.activePort with
  | some p => p.isOpen
  | none => false

inductive SerialError where
  | notOpen (portName : String)
  | alreadyOpen (portName : String)
  | invalidPortName
  | accessDenied (msg : String)
  | portNotFound (path : String)
  | openFailed (msg : String)
  | closeFailed (msg : String)
  | writeFailed (msg : String)
  deriving DecidableEq

/-- Failure reported by the underlying `port.open` callback.  serial.js
classifies the raw error message by regular-expression match
(`/access\s*denied|permission/i`, `/file\s*not\s*found|.../i`); the
classification is modelled as the kind carried by the oracle, since every
branch of the classifier rethrows without touching module state. -/
inductive OpenFailure where
  | accessDenied (msg : String)
  | portNotFound
  | other (msg : String)
  deriving DecidableEq

/-- The state after `closePort` (and the initial module state):
`activePort = null`, `activePortName = ''`, `rxBuffer` empty. -/
def closedState : SerialState := ⟨none, "", []⟩

/-- serial.js `openPort`.  `name` is `none` when the argument is not a
string (`normalizeComName` type test); `env` is the outcome of the
underlying `port.open` (`none` = opened).  Returns the new module state and
the result (`.ok` confirmation message or `.error`). -/
def openPort (st : SerialState) (name : Option String) (baudRate : Nat)
    (env : Option OpenFailure) : SerialState × Except SerialError String :=
  if sessionOpen st then
    (st, .error (.alreadyOpen st.activePortName))
  else
    match name with
    | none => (st, .error .invalidPortName)
    | some nm =>
      if nm = "" then (st, .error .invalidPortName)
      else
        match env with
        | some (.accessDenied msg) => (st, .error (.accessDenied msg))
        | some .portNotFound => (st, .error (.portNotFound nm))
        | some (.other msg) => (st, .error (.openFailed msg))
        | none =>
          (⟨some ⟨true⟩, nm, []⟩,
           .ok ("Opened " ++ nm ++ " @ " ++ toString baudRate ++ " baud"))

/-- The `port.on('data', ...)` handler registered by `openPort`: appends the
chunk to `rxBuffer` (`rxBuffer.length === 0 ? chunk : Buffer.concat(...)`). -/
def dataEvent (st : SerialState) (chunk : List Nat) : SerialState :=
  { st with rxBuffer := st.rxBuffer ++ chunk }

/-- The `readFromBuffer` closure inside serial.js `read`: take
`min(length, maxBytes)` bytes from the front, or `null` when empty. -/
def readFromBuffer (buf : List Nat) (maxBytes : Nat) :
    Option (List Nat) × List Nat :=
  if buf.length = 0 then (none, buf)
  else
    let take := min buf.length maxBytes
    (some (buf.take take), buf.drop take)

/-- Result of serial.js `read`: the returned chunk (raw bytes; the JS
`data` field is its string view in the requested encoding) and `bytes`. -/
structure ReadOk where
  data : List Nat
  bytes : Nat
  deriving DecidableEq

/-- serial.js `read`.  `arrival` is the oracle for the wait branch: the
first data chunk the channel delivers within the timeout window (`none`
when the timer fires first).  When data is already buffered, or
`timeoutMs = 0`, the wait branch is never consulted. -/
def read (st : SerialState) (maxBytes timeoutMs : Nat)
    (arrival : Option (List Nat)) : SerialState × Except SerialError ReadOk :=
  if sessionOpen st then
    match readFromBuffer st.rxBuffer maxBytes with
    | (some c, rest) => ({ st with rxBuffer := rest }, .ok ⟨c, c.length⟩)
    | (none, _) =>
      if 0 < timeoutMs then
        match arrival with
        | some chunk =>
          -- the openPort data handler appends first, then read's own
          -- onData consumes from the shared buffer
          match readFromBuffer (st.rxBuffer ++ chunk) maxBytes with
          | (some c, rest) => ({ st with rxBuffer := rest }, .ok ⟨c, c.length⟩)
          | (none, rest) => ({ st with rxBuffer := rest }, .ok ⟨[], 0⟩)
        | none => (st, .ok ⟨[], 0⟩)
      else (st, .ok ⟨[], 0⟩)
  else (st, .error (.notOpen st.activePortName))

/-- The per-call encodings accepted by serial.js `write`/`read`
(schema enum: utf8, hex, base64). -/
inductive Encoding where
  | utf8
  | hex
  | base64
  deriving DecidableEq

/-- UTF-8 encoding of one Unicode scalar value (standard 1–4 byte forms);
models Node `Buffer.from(s, 'utf8')` per character. -/
def utf8EncodeChar (c : Char) : List Nat :=
  let n := c.toNat
  if n < 0x80 then [n]
  else if n < 0x800 then [0xC0 + n / 64, 0x80 + n % 64]
  else if n < 0x10000 then
    [0xE0 + n / 4096, 0x80 + n / 64 % 64, 0x80 + n % 64]
  else
    [0xF0 + n / 262144, 0x80 + n / 4096 % 64, 0x80 + n / 64 % 64, 0x80 + n % 64]

/-- Node `Buffer.from(s, 'utf8')` as a byte list. -/
def utf8Encode (s : String) : List Nat := (s.toList.map utf8EncodeChar).flatten

/-- Hex digit value (both cases), `none` for a non-hex character. -/
def hexDigitVal (c : Char) : Option Nat :=
  if '0' ≤ c ∧ c ≤ '9' then some (c.toNat - '0'.toNat)
  else if 'a' ≤ c ∧ c ≤ 'f' then some (c.toNat - 'a'.toNat + 10)
  else if 'A' ≤ c ∧ c ≤ 'F' then some (c.toNat - 'A'.toNat + 10)
  else none

/-- Node `Buffer.from(s, 'hex')`: decode two hex digits per byte, stopping
at the first pair that is not two valid hex digits (a trailing unpaired
digit is likewise dropped). -/
def hexDecodeList : List Char → List Nat
  | c1 :: c2 :: rest =>
    match hexDigitVal c1, hexDigitVal c2 with
    | some h, some l => (16 * h + l) :: hexDecodeList rest
    | _, _ => []
  | _ => []

def hexDecode (s : String) : List Nat := hexDecodeList s.toList

/-- Base64 alphabet value of a character, `none` otherwise. -/
def b64Val (c : Char) : Option Nat :=
  if 'A' ≤ c ∧ c ≤ 'Z' then some (c.toNat - 'A'.toNat)
  else if 'a' ≤ c ∧ c ≤ 'z' then some (c.toNat - 'a'.toNat + 26)
  else if '0' ≤ c ∧ c ≤ '9' then some (c.toNat - '0'.toNat + 52)
  else if c = '+' then some 62
  else if c = '/' then some 63
  else none

/-- Regroup 6-bit values into bytes (4 → 3, with 2- and 3-value tails). -/
def b64Regroup : List Nat → List Nat
  | a :: b :: c :: d :: rest =>
    (a * 4 + b / 16) :: (b % 16 * 16 + c / 4) :: (c % 4 * 64 + d) ::
      b64Regroup rest
  | [a, b] => [a * 4 + b / 16]
  | [a, b, c] => [a * 4 + b / 16, b % 16 * 16 + c / 4]
  | _ => []

/-- Node `Buffer.from(s, 'base64')`: lenient decoding that skips characters
outside the base64 alphabet (in particular whitespace and padding). -/
def b64Decode (s : String) : List Nat := b64Regroup (s.toList.filterMap b64Val)

/-- The string actually handed to `Buffer.from` by serial.js `write`:
for utf8, `data + '\n'` when appendNewline; otherwise
`data + (encoding === 'hex' ? '0a' : '\n')` when appendNewline. -/
def writeRawString (data : String) (enc : Encoding) (appendNewline : Bool) :
    String :=
  match enc with
  | .utf8 => if appendNewline then data ++ "\n" else data
  | .hex => if appendNewline then data ++ "0a" else data
  | .base64 => if appendNewline then data ++ "\n" else data

/-- `Buffer.from(raw, encoding)` for the three supported encodings. -/
def bufferFrom (enc : Encoding) (raw : String) : List Nat :=
  match enc with
  | .utf8 => utf8Encode raw
  | .hex => hexDecode raw
  | .base64 => b64Decode raw

/-- `bufferToSend` in serial.js `write`. -/
def writeBuffer (data : String) (enc : Encoding) (appendNewline : Bool) :
    List Nat :=
  bufferFrom enc (writeRawString data enc appendNewline)

/-- serial.js `write`.  `env` is the error reported by the underlying
`port.write`/`port.drain` callbacks (`none` = transmitted and drained).
Returns `{ bytes: bufferToSend.length }`; module state is never assigned. -/
def write (st : SerialState) (data : String) (enc : Encoding)
    (appendNewline : Bool) (env : Option String) :
    SerialState × Except SerialError Nat :=
  if sessionOpen st then
    match env with
    | some msg => (st, .error (.writeFailed msg))
    | none => (st, .ok (writeBuffer data enc appendNewline).length)
  else (st, .error (.notOpen st.activePortName))

/-- serial.js `closePort`.  `env` is the error reported by the underlying
`port.close` callback (`none` = closed cleanly); it is consulted only when
a session is open.  On a close error the rejection propagates before any
state reset (source lines: the resets follow the awaited promise). -/
def closePort (st : SerialState) (env : Option String) :
    SerialState × Except SerialError String :=
  if sessionOpen st then
    match env with
    | some msg => (st, .error (.closeFailed msg))
    | none => (closedState, .ok "Port closed")
  else (closedState, .ok "Port closed")

end Serial

/-! ## ST-Link module (stlink.js) -/

namespace StLink

/-- Errors thrown by stlink.js, one constructor per throw site, each
carrying the exact message the source builds. -/
inductive StErr where
  | invalidArg (msg : String)
  | badPath (msg : String)
  | unsupported (msg : String)
  | toolFailed (msg : String)
  | toolNotFound (msg : String)
  | debugNotRunning (msg : String)
  deriving DecidableEq

/-- stlink.js `parseIntHexOrDec(value, name)`: numbers are reduced with
`>>> 0`; strings are parsed with radix 16 exactly when the trimmed,
lowercased string starts with `0x`, with radix 10 otherwise; a NaN parse
throws `name + ' is not a valid number'`; any other type throws
`name + ' must be hex string (0x...) or number'`. -/
def parseIntHexOrDec (value : JsVal) (name : String) : Except StErr Nat :=
  match value with
  | .num n => .ok (toUint32 n)
  | .str s =>
    let r :=
      if jsStartsWith (jsToLower (jsTrim s)) "0x" then jsParseInt s 16
      else jsParseInt s 10
    match r with
    | none => .error (.invalidArg (name ++ " is not a valid number"))
    | some i => .ok (toUint32 i)
  | .other =>
    .error (.invalidArg (name ++ " must be hex string (0x...) or number"))

/-- `n.toString(16)` (JS, for a nonnegative integral number). -/
def natToHex (n : Nat) : String := String.mk (Nat.toDigits 16 n)

/-- Result shape of a successful one-shot ST tool invocation:
`{ tool, stdout, stderr }`. -/
structure ToolResult where
  tool : String
  stdout : String
  stderr : String
  deriving DecidableEq

/-- Outcome of `execFileAsync` for the tool command actually executed:
`success` resolves with stdout/stderr; `failure` rejects with an error `e`
carrying `e.stdout`, `e.stderr` and `e.message` (non-zero exit status or
spawn failure). -/
inductive ExecOutcome where
  | success (stdout stderr : String)
  | failure (stdout stderr message : String)
  deriving DecidableEq

/-- `e?.stderr || e?.stdout || e?.message` (JS `||` takes the first
non-empty string; the final `String(e)` fallback is subsumed by modelling
`e.message` as the last resort). -/
def pickErrMsg (stdout stderr message : String) : String :=
  if stderr ≠ "" then stderr else if stdout ≠ "" then stdout else message

/-- Which ST tools `isExecutable` finds, in the order stlink.js probes
them.  The probe invocation itself (`--version`) is treated as the
availability check and is not recorded; only operation commands are. -/
structure StTools where
  stFlash : Bool
  stlinkCli : Bool
  progCli : Bool
  deriving DecidableEq

/-- A recorded external tool invocation: executable and argument list. -/
abbrev Cmd := String × List String

/-- stlink.js `flashFirmware({ path, addr })`.  `fwPath = none` models a
non-string `path` argument; `addr = none` models `addr == null` (default
address `0x08000000`).  Returns the result and the list of operation
commands actually dispatched (path resolution to an absolute path is kept
abstract: the resolved path is the given one). -/
def flashFirmware (fwPath : Option String) (addr : Option JsVal)
    (tools : StTools) (outcome : ExecOutcome) :
    Except StErr ToolResult × List Cmd :=
  match fwPath with
  | none => (.error (.badPath "Invalid firmware path"), [])
  | some p =>
    if p = "" then (.error (.badPath "Invalid firmware path"), [])
    else if tools.stFlash then
      match (match addr with
             | some a => parseIntHexOrDec a "addr"
             | none => .ok 0x08000000) with
      | .error e => (.error e, [])
      | .ok address =>
        let c : Cmd := ("st-flash", ["write", p, "0x" ++ natToHex address])
        match outcome with
        | .success out err => (.ok ⟨"st-flash", out, err⟩, [c])
        | .failure out err msg =>
          (.error (.toolFailed ("st-flash failed: " ++ pickErrMsg out err msg)),
           [c])
    else if tools.stlinkCli then
      match (match addr with
             | some a => parseIntHexOrDec a "addr"
             | none => .ok 0x08000000) with
      | .error e => (.error e, [])
      | .ok address =>
        let c : Cmd := ("ST-LINK_CLI.exe", ["-P", p, toString address, "-V", "-Rst"])
        match outcome with
        | .success out err => (.ok ⟨"ST-LINK_CLI", out, err⟩, [c])
        | .failure out err msg =>
          (.error (.toolFailed ("ST-LINK_CLI failed: " ++ pickErrMsg out err msg)),
           [c])
    else if tools.progCli then
      match (match addr with
             | some a => parseIntHexOrDec a "addr"
             | none => .ok 0x08000000) with
      | .error e => (.error e, [])
      | .ok address =>
        let c : Cmd :=
          ("STM32_Programmer_CLI.exe",
           ["-c", "port=SWD", "-w", p, "0x" ++ natToHex address, "-v", "-rst"])
        match outcome with
        | .success out err => (.ok ⟨"STM32_Programmer_CLI", out, err⟩, [c])
        | .failure out err msg =>
          (.error (.toolFailed
             ("STM32_Programmer_CLI failed: " ++ pickErrMsg out err msg)), [c])
    else
      (.error (.toolNotFound
        ("No ST-Link flasher tool available (st-flash, ST-LINK_CLI.exe, " ++
         "or STM32_Programmer_CLI.exe).")), [])

/-- stlink.js `readRegister({ addr, length })`: both numeric arguments are
parsed up front, before any tool availability check or invocation.
`tmpFile` abstracts the random temporary dump file name; the dumped bytes
are supplied by the success oracle. -/
def readRegister (addr lenV : JsVal) (tools : StTools) (tmpFile : String)
    (outcome : ExecOutcome) (dumped : List Nat) :
    Except StErr (String × List Nat) × List Cmd :=
  match parseIntHexOrDec addr "addr" with
  | .error e => (.error e, [])
  | .ok address =>
    match parseIntHexOrDec lenV "length" with
    | .error e => (.error e, [])
    | .ok size =>
      if tools.stFlash then
        let c : Cmd :=
          ("st-flash", ["read", tmpFile, "0x" ++ natToHex address, toString size])
        match outcome with
        | .success _ _ => (.ok ("st-flash", dumped), [c])
        | .failure out err msg =>
          (.error (.toolFailed ("st-flash read failed: " ++ pickErrMsg out err msg)),
           [c])
      else if tools.progCli then
        let c : Cmd :=
          ("STM32_Programmer_CLI.exe",
           ["-c", "port=SWD", "-d", tmpFile, "0x" ++ natToHex address,
            toString size])
        match outcome with
        | .success _ _ => (.ok ("STM32_Programmer_CLI", dumped), [c])
        | .failure out err msg =>
          (.error (.toolFailed
             ("STM32_Programmer_CLI read failed: " ++ pickErrMsg out err msg)),
           [c])
      else
        (.error (.toolNotFound
          "readRegister requires st-flash or STM32_Programmer_CLI. Install one and set env path."),
         [])

/-- stlink.js `writeRegister({ addr, value })`: parses both arguments, then
unconditionally throws the GDB-scripting limitation error.  It assigns no
module state on any path. -/
def writeRegister (addr value : JsVal) : Except StErr Unit :=
  match parseIntHexOrDec addr "addr" with
  | .error e => .error e
  | .ok _ =>
    match parseIntHexOrDec value "value" with
    | .error e => .error e
    | .ok _ =>
      .error (.unsupported
        "writeRegister via CLI is not directly supported without GDB scripting. Use debug session + GDB to set memory.")

/-- stlink.js `resetDevice()`. -/
def resetDevice (tools : StTools) (outcome : ExecOutcome) :
    Except StErr ToolResult :=
  if tools.stFlash then
    match outcome with
    | .success out err => .ok ⟨"st-flash", out, err⟩
    | .failure out err msg =>
      .error (.toolFailed ("st-flash reset failed: " ++ pickErrMsg out err msg))
  else if tools.stlinkCli then
    match outcome with
    | .success out err => .ok ⟨"ST-LINK_CLI", out, err⟩
    | .failure out err msg =>
      .error (.toolFailed ("ST-LINK_CLI reset failed: " ++ pickErrMsg out err msg))
  else if tools.progCli then
    match outcome with
    | .success out err => .ok ⟨"STM32_Programmer_CLI", out, err⟩
    | .failure out err msg =>
      .error (.toolFailed
        ("STM32_Programmer_CLI reset failed: " ++ pickErrMsg out err msg))
  else
    .error (.toolNotFound
      "No ST-Link reset tool available (st-flash or ST-LINK_CLI.exe).")

end StLink

/-! ## Debug-probe server supervisor (stlink.js startDebug/stopDebug)

stlink.js `startDebug` is an async function: its synchronous prefix checks
the `stUtilProc` slot, probes `st-util`, sets `gdbPort` and spawns the
child; it then suspends until a "ready" phrase (`/Listening at|gdbserver/i`)
appears in the child's output, at which point `stUtilProc` is assigned and
the call resolves.  The model below is a small-step trace semantics over
the module state: `startDebugEntry` is the synchronous prefix (the spawn),
`readyEvent` the output-pattern match that completes a pending start, and
`stopDebug` the termination path.  Child processes are identified by
freshly allocated numeric ids; `live` tracks spawned children that have not
been killed, `starting` the spawned children whose ready phrase has not yet
been observed (i.e. the *Starting* phase of the corresponding slot).
openocd.js and jlink.js `startDebug`/`stopDebug` have the identical guard
structure with their own slot variable (`openocdProc` / `gdbServerProc`);
the model is stated once for the st-util slot. -/

namespace Debug

structure DebugState where
  stUtilProc : Option Nat
  gdbPort : Nat
  starting : List Nat
  live : List Nat
  nextPid : Nat
  deriving DecidableEq

/-- Module state at load: `stUtilProc = null`, `gdbPort = 4242`. -/
def initDebug : DebugState := ⟨none, 4242, [], [], 0⟩

/-- What the synchronous prefix of `startDebug` did. -/
inductive StartOutcome where
  | alreadyRunning (msg : String)
  | toolMissing (msg : String)
  | spawned (pid : Nat)
  deriving DecidableEq

/-- Synchronous prefix of stlink.js `startDebug({ port })`:
`if (stUtilProc) return { message: 'st-util already running on :' + gdbPort }`;
then the `st-util` availability check; then `gdbPort = port || 4242` and the
spawn.  `port = 0` models a falsy port argument. -/
def startDebugEntry (st : DebugState) (port : Nat) (toolOk : Bool) :
    DebugState × StartOutcome :=
  match st.stUtilProc with
  | some _ =>
    (st, .alreadyRunning ("st-util already running on :" ++ toString st.gdbPort))
  | none =>
    if toolOk then
      let p := if port = 0 then 4242 else port
      let pid := st.nextPid
      (⟨none, p, st.starting ++ [pid], st.live ++ [pid], pid + 1⟩, .spawned pid)
    else
      (st, .toolMissing
        "st-util not found. Please install STM32 open-source tools (st-util).")

/-- The ready-phrase match for a pending start: sets `stUtilProc` to the
child and resolves that start call. -/
def readyEvent (st : DebugState) (pid : Nat) : DebugState :=
  if pid ∈ st.starting then
    ⟨some pid, st.gdbPort, st.starting.erase pid, st.live, st.nextPid⟩
  else st

/-- stlink.js `stopDebug()`: `if (!stUtilProc) return { message: 'st-util
not running' }`; otherwise clears the slot and kills that child. -/
def stopDebug (st : DebugState) : DebugState × String :=
  match st.stUtilProc with
  | none => (st, "st-util not running")
  | some pid =>
    (⟨none, st.gdbPort, st.starting, st.live.erase pid, st.nextPid⟩,
     "st-util stopped")

end Debug

/-! ## Build and version-control one-shot invocations
(compiler.js compile, project.js gitCommit/gitDiff) -/

namespace Build

open StLink (ExecOutcome)

/-- Result of compiler.js `compile`: `{ ok, tool, cmd, cwd, stdout, stderr }`. -/
structure CompileResult where
  ok : Bool
  tool : String
  cmd : String
  cwd : String
  stdout : String
  stderr : String
  deriving DecidableEq

inductive BuildTool where
  | make
  | cubeide
  deriving DecidableEq

/-- compiler.js `compile({ target, cwd, tool, project })`.  `cubeide` is
the CubeIDE executable found by `detectCubeIDE` (`none` = not found);
`project = none` models a falsy `project` argument; `outcome` is what
`execAsync(cmd, ...)` does.  The `try/catch` around the exec turns a
rejection into `{ ok: false, ..., stdout: e.stdout || '', stderr:
e.stderr || e.message || String(e) }`; only the CubeIDE-not-found and
missing-project checks throw. -/
def compile (target : String) (cwd : String) (tool : BuildTool)
    (project : Option String) (cubeide : Option String)
    (outcome : ExecOutcome) : Except String CompileResult :=
  match tool with
  | .cubeide =>
    match cubeide with
    | none => .error "STM32CubeIDE CLI not found. Set CUBEIDE_CLI env or install CubeIDE."
    | some bin =>
      match project with
      | none => .error "cubeide build requires a project path or name in \"project\""
      | some proj =>
        let cmd :=
          "\"" ++ bin ++ "\" -nosplash -application " ++
          "org.eclipse.cdt.managedbuilder.core.headlessbuild -data \"" ++
          cwd ++ "\" -import \"" ++ proj ++ "\" -cleanBuild"
        match outcome with
        | .success out err => .ok ⟨true, "cubeide", cmd, cwd, out, err⟩
        | .failure out err msg =>
          .ok ⟨false, "cubeide", cmd, cwd, out,
               if err ≠ "" then err else msg⟩
  | .make =>
    let cmd := jsTrim ("make " ++ target)
    match outcome with
    | .success out err => .ok ⟨true, "make", cmd, cwd, out, err⟩
    | .failure out err msg =>
      .ok ⟨false, "make", cmd, cwd, out, if err ≠ "" then err else msg⟩

/-- Result of project.js `gitCommit`/`gitDiff`: `{ ok, stdout, stderr }`. -/
structure GitResult where
  ok : Bool
  stdout : String
  stderr : String
  deriving DecidableEq

/-- project.js `gitCommit({ message, cwd })`: a falsy message throws;
otherwise the shell-out result is returned with `ok` reflecting exec
success, never thrown. -/
def gitCommit (message : Option String) (outcome : ExecOutcome) :
    Except String GitResult :=
  match message with
  | none => .error "gitCommit requires a message"
  | some m =>
    if m = "" then .error "gitCommit requires a message"
    else
      match outcome with
      | .success out err => .ok ⟨true, out, err⟩
      | .failure out err msg => .ok ⟨false, out, if err ≠ "" then err else msg⟩

/-- project.js `gitDiff({ cwd })`: never throws. -/
def gitDiff (outcome : ExecOutcome) : GitResult :=
  match outcome with
  | .success out err => ⟨true, out, err⟩
  | .failure out err msg => ⟨false, out, if err ≠ "" then err else msg⟩

end Build

/-! ## Consumption harness for the receive buffer -/

namespace Serial

/-- The module state right after a successful `openPort` (open handle,
port name recorded, receive buffer reset to empty). -/
def freshSession : SerialState := ⟨some ⟨true⟩, "COM3", []⟩

/-- Repeated `read(maxBytes, timeoutMs = 0)` calls until a read returns no
bytes (the buffer is drained) or an error occurs; `fuel` bounds the number
of calls (the buffer length suffices).  Returns the chunks in the order
read, and the final module state. -/
def drainReads : Nat → Nat → SerialState → List (List Nat) × SerialState
  | 0, _, st => ([], st)
  | fuel + 1, m, st =>
    match read st m 0 none with
    | (st2, .ok r) =>
      if r.bytes = 0 then ([], st2)
      else
        let rest := drainReads fuel m st2
        (r.data :: rest.1, rest.2)
    | (st2, .error _) => ([], st2)

end Serial

/-- Error-class test: does a `writeRegister` outcome carry the
unsupported-operation error (as opposed to an invalid-argument error)? -/
def isUnsupportedErr : Except StLink.StErr Unit → Bool
  | .error (.unsupported _) => true
  | _ => false

namespace Serial

/-! ### Lemmas about the serial module -/

theorem rxBuffer_foldl_dataEvent (chunks : List (List Nat)) :
    ∀ st : SerialState,
      (List.foldl dataEvent st chunks).rxBuffer = st.rxBuffer ++ chunks.flatten := by
  induction chunks with
  | nil => intro st; simp
  | cons c cs ih =>
    intro st
    simp [List.foldl_cons, ih, dataEvent, List.append_assoc]

theorem activePort_foldl_dataEvent (chunks : List (List Nat)) :
    ∀ st : SerialState,
      (List.foldl dataEvent st chunks).activePort = st.activePort := by
  induction chunks with
  | nil => intro st; rfl
  | cons c cs ih => intro st; simp [List.foldl_cons, ih, dataEvent]

theorem sessionOpen_foldl_dataEvent (chunks : List (List Nat))
    (st : SerialState) :
    sessionOpen (List.foldl dataEvent st chunks) = sessionOpen st := by
  simp [sessionOpen, activePort_foldl_dataEvent]

/-- A `read` against a non-empty buffer takes the non-blocking fast path:
it returns the prefix of length `min(length, maxBytes)` and removes exactly
that prefix, regardless of `timeoutMs` and of any later arrival. -/
theorem read_buffered (st : SerialState) (h : sessionOpen st = true)
    (hne : st.rxBuffer ≠ []) (m t : Nat) (arr : Option (List Nat)) :
    read st m t arr =
      ({ st with rxBuffer := st.rxBuffer.drop (min st.rxBuffer.length m) },
       .ok ⟨st.rxBuffer.take (min st.rxBuffer.length m),
            min st.rxBuffer.length m⟩) := by
  have hlen : ¬ st.rxBuffer.length = 0 := by
    simpa [List.length_eq_zero] using hne
  simp only [read, readFromBuffer, h, if_true, hlen, if_false, if_neg hlen]
  have : (List.take (min st.rxBuffer.length m) st.rxBuffer).length =
      min st.rxBuffer.length m := by
    simp [List.length_take, Nat.min_eq_left (Nat.min_le_left _ _)]
  rw [this]

/-- With an empty buffer and `timeoutMs = 0`, `read` on an open session
returns the empty result and leaves the state untouched; the wait branch
(and hence the arrival oracle) is never consulted. -/
theorem read_empty_zero (st : SerialState) (h : sessionOpen st = true)
    (he : st.rxBuffer = []) (m : Nat) (arr : Option (List Nat)) :
    read st m 0 arr = (st, .ok ⟨[], 0⟩) := by
  simp [read, readFromBuffer, h, he]

/-- Draining an open session returns chunks that concatenate exactly to
the buffered bytes. -/
theorem drainReads_flatten :
    ∀ (fuel m : Nat) (st : SerialState), 0 < m → sessionOpen st = true →
      st.rxBuffer.length ≤ fuel →
      ((drainReads fuel m st).1).flatten = st.rxBuffer := by
  intro fuel
  induction fuel with
  | zero =>
    intro m st _ _ hlen
    have : st.rxBuffer = [] := by
      simpa [List.length_eq_zero] using Nat.le_zero.mp hlen
    simp [drainReads, this]
  | succ fuel ih =>
    intro m st hm hopen hlen
    by_cases hne : st.rxBuffer = []
    · rw [drainReads, read_empty_zero st hopen hne]
      simp [hne]
    · rw [drainReads, read_buffered st hopen hne m 0 none]
      have hbl : 0 < st.rxBuffer.length := List.length_pos.mpr hne
      have hk : 0 < min st.rxBuffer.length m := lt_min hbl hm
      simp only [Nat.pos_iff_ne_zero] at hk
      simp only [hk, if_false, if_neg hk]
      have hlt : st.rxBuffer.length - min st.rxBuffer.length m ≤ fuel := by
        have := Nat.pos_of_ne_zero hk
        omega
      have := ih m { st with rxBuffer := st.rxBuffer.drop (min st.rxBuffer.length m) }
        hm (by simpa [sessionOpen] using hopen) (by simpa using hlt)
      simp only [List.flatten_cons, this]
      exact List.take_append_drop _ _

theorem toList_append (s t : String) : (s ++ t).toList = s.toList ++ t.toList := by
  simp [String.toList, String.data_append]

theorem utf8Encode_append (s t : String) :
    utf8Encode (s ++ t) = utf8Encode s ++ utf8Encode t := by
  simp [utf8Encode, toList_append]

/-- Appending the two hex digits `0a` to an all-hex-digit string adds
exactly one decoded byte. -/
theorem hexDecodeList_append_newline :
    ∀ cs : List Char, (∀ c ∈ cs, (hexDigitVal c).isSome) →
      (hexDecodeList (cs ++ ['0', 'a'])).length = (hexDecodeList cs).length + 1
  | [], _ => by decide
  | [c], h => by
    obtain ⟨d, hd⟩ := Option.isSome_iff_exists.mp (h c (by simp))
    show (hexDecodeList [c, '0', 'a']).length = (hexDecodeList [c]).length + 1
    have h0 : hexDigitVal '0' = some 0 := by decide
    simp [hexDecodeList, hd, h0]
  | c1 :: c2 :: rest, h => by
    obtain ⟨d1, hd1⟩ := Option.isSome_iff_exists.mp (h c1 (by simp))
    obtain ⟨d2, hd2⟩ := Option.isSome_iff_exists.mp (h c2 (by simp))
    have ih := hexDecodeList_append_newline rest
      (fun c hc => h c (by simp [hc]))
    simp [hexDecodeList, hd1, hd2, ih]

end Serial

/-! ## Claim theorems -/

open Serial StLink Debug Build

/-- Claim C2: while a session is open, the byte sequence delivered by the
channel's data-arrival events is consumed FIFO: draining the receive
buffer by repeated `read` calls yields chunks whose concatenation equals
the delivered bytes (no reordering, no duplication), and each single
`read` against a non-empty buffer removes exactly the returned prefix, of
length `min(buffered length, maxBytes)`. -/
theorem read_fifo_drain (chunks : List (List Nat)) (m : Nat) (hm : 0 < m)
    (st : SerialState) (hopen : sessionOpen st = true)
    (hempty : st.rxBuffer = []) :
    (((drainReads (List.foldl dataEvent st chunks).rxBuffer.length m
        (List.foldl dataEvent st chunks)).1).flatten = chunks.flatten) ∧
    (∀ st2 : SerialState, sessionOpen st2 = true → st2.rxBuffer ≠ [] →
      ∀ t arr, read st2 m t arr =
        ({ st2 with rxBuffer := st2.rxBuffer.drop (min st2.rxBuffer.length m) },
         .ok ⟨st2.rxBuffer.take (min st2.rxBuffer.length m),
              min st2.rxBuffer.length m⟩)) := by
  constructor
  · have h2 := sessionOpen_foldl_dataEvent chunks st
    rw [drainReads_flatten _ m _ hm (by rw [h2, hopen]) (le_refl _),
        rxBuffer_foldl_dataEvent chunks st, hempty]
    simp
  · intro st2 h2 hne t arr
    exact read_buffered st2 h2 hne m t arr

/-- Witness for C2: delivering "he" then "llo" into a fresh session and
draining with maxBytes 3 reproduces the bytes of "hello". -/
theorem read_fifo_drain_witness :
    0 < 3 ∧ sessionOpen freshSession = true ∧ freshSession.rxBuffer = [] ∧
    ((drainReads
        (List.foldl dataEvent freshSession
          [[104, 101], [108, 108, 111]]).rxBuffer.length 3
        (List.foldl dataEvent freshSession
          [[104, 101], [108, 108, 111]])).1).flatten =
      ([[104, 101], [108, 108, 111]] : List (List Nat)).flatten :=
  ⟨by decide, by decide, rfl,
   (read_fifo_drain [[104, 101], [108, 108, 111]] 3 (by decide)
     freshSession (by decide) rfl).1⟩

/-- Claim C5: `read` on an open session with an empty receive buffer and
`timeoutMs = 0` returns the empty result immediately, without entering the
wait branch (the result does not depend on any later arrival) and without
an error, leaving the state unchanged. -/
theorem read_empty_nowait (st : SerialState) (h : sessionOpen st = true)
    (he : st.rxBuffer = []) (m : Nat) (arr : Option (List Nat)) :
    read st m 0 arr = (st, .ok ⟨[], 0⟩) :=
  read_empty_zero st h he m arr

/-- Witness for C5 on a fresh session; the pending-arrival oracle is
non-trivial yet ignored. -/
theorem read_empty_nowait_witness :
    sessionOpen freshSession = true ∧ freshSession.rxBuffer = [] ∧
    read freshSession 65536 0 (some [1, 2, 3]) = (freshSession, .ok ⟨[], 0⟩) :=
  ⟨by decide, rfl,
   read_empty_nowait freshSession (by decide) rfl 65536 (some [1, 2, 3])⟩

/-- Claim C6: `openPort` while a session is already open fails with the
already-open error for every configuration argument and leaves the
existing session's state (port, name, buffer) unchanged. -/
theorem openPort_already_open (st : SerialState) (h : sessionOpen st = true)
    (name : Option String) (baud : Nat) (env : Option OpenFailure) :
    openPort st name baud env = (st, .error (.alreadyOpen st.activePortName)) := by
  simp [openPort, h]

/-- Witness for C6 at a fresh session on "COM3". -/
theorem openPort_already_open_witness :
    sessionOpen freshSession = true ∧
    openPort freshSession (some "COM4") 9600 none =
      (freshSession, .error (.alreadyOpen "COM3")) :=
  ⟨by decide,
   openPort_already_open freshSession (by decide) (some "COM4") 9600 none⟩

/-- Claim C7 counterexample: when the underlying channel close reports an
error, `closePort` rethrows it before any state reset — the call returns
an error instead of a confirmation and the session is not at the destroyed
lifecycle point, refuting "calling it twice in a row never throws and
returns a confirmation both times" on its first call. -/
theorem closePort_close_error_cex :
    closePort freshSession (some "EIO: close failed") =
      (freshSession, .error (.closeFailed "EIO: close failed")) ∧
    freshSession ≠ closedState := by
  exact ⟨rfl, by decide⟩

/-- Claim C7 amended: whenever the underlying channel close reports no
error (and always when no session is open), `closePort` returns the
confirmation and resets the state to the destroyed lifecycle point; a
second call in a row then also succeeds, whatever its close outcome, so
the idempotence holds on every path on which the first close did not
itself error. -/
theorem closePort_idempotent (st : SerialState) (env2 : Option String) :
    closePort st none = (closedState, .ok "Port closed") ∧
    closePort (closePort st none).1 env2 = (closedState, .ok "Port closed") := by
  have h1 : closePort st none = (closedState, .ok "Port closed") := by
    unfold closePort
    split <;> rfl
  refine ⟨h1, ?_⟩
  rw [h1]
  cases env2 <;> rfl

/-- Claim C8: `openPort` failure is atomic.  From the destroyed lifecycle
point (no active port, empty receive buffer), any failing `openPort` —
invalid name, access denied, port not found, or any other underlying open
error — leaves the module state unchanged, so a subsequent `write` or
`read` fails with the not-open error and `closePort` still returns its
confirmation. -/
theorem openPort_failure_atomic (st : SerialState) (hnp : st.activePort = none)
    (hbuf : st.rxBuffer = []) (name : Option String) (baud : Nat)
    (env : Option OpenFailure) (e : SerialError)
    (hfail : (openPort st name baud env).2 = .error e) :
    (openPort st name baud env).1 = st ∧
    (openPort st name baud env).1.activePort = none ∧
    (openPort st name baud env).1.rxBuffer = [] ∧
    (∀ data enc nl wenv,
      write st data enc nl wenv = (st, .error (.notOpen st.activePortName))) ∧
    (∀ m t arr, read st m t arr = (st, .error (.notOpen st.activePortName))) ∧
    (∀ cenv, closePort st cenv = (closedState, .ok "Port closed")) := by
  have hO : sessionOpen st = false := by simp [sessionOpen, hnp]
  have hstate : (openPort st name baud env).1 = st := by
    unfold openPort at hfail ⊢
    simp only [hO, Bool.false_eq_true, if_false] at hfail ⊢
    rcases name with _ | nm
    · rfl
    · by_cases hnm : nm = ""
      · simp [hnm]
      · simp only [hnm, if_false] at hfail ⊢
        rcases env with _ | f
        · simp at hfail
        · cases f <;> rfl
  refine ⟨hstate, by rw [hstate, hnp], by rw [hstate, hbuf], ?_, ?_, ?_⟩
  · intro data enc nl wenv
    simp [Serial.write, hO]
  · intro m t arr
    simp [Serial.read, hO]
  · intro cenv
    simp [Serial.closePort, hO]

/-- Witness for C8: a failing open from the destroyed state leaves the
state unchanged. -/
theorem openPort_failure_atomic_witness :
    closedState.activePort = none ∧ closedState.rxBuffer = [] ∧
    (openPort closedState (some "COM9") 115200 (some (.other "boom"))).2 =
      .error (.openFailed "boom") ∧
    (openPort closedState (some "COM9") 115200 (some (.other "boom"))).1 =
      closedState :=
  ⟨rfl, rfl, by decide,
   (openPort_failure_atomic closedState rfl rfl (some "COM9") 115200
     (some (.other "boom")) (.openFailed "boom") (by decide)).1⟩

/-- Claim C10 counterexample: with encoding hex, Node's hex decoder stops
at the first non-hex character, so for data "zz" the appended pair "0a"
contributes no byte at all: the transmitted count is 0 both with and
without `appendNewline`, refuting "contributing exactly one extra byte". -/
theorem write_hex_invalid_cex :
    (write freshSession "zz" .hex true none).2 = .ok 0 ∧
    (write freshSession "zz" .hex false none).2 = .ok 0 ∧
    (writeBuffer "zz" .hex true).length ≠ (writeBuffer "zz" .hex false).length + 1 := by
  decide

/-- Claim C10 amended: on an open session `write` reports exactly the
length of the encoded buffer it transmits; with utf8 and appendNewline the
count is the UTF-8 byte length of data plus one; with hex and
appendNewline the appended pair "0a" contributes exactly one extra byte
provided data consists of hex digits only (the decoder stops at the first
invalid character otherwise); with base64 and appendNewline the character
"\n" is appended to the base64 string before decoding. -/
theorem write_byte_count (st : SerialState) (h : sessionOpen st = true)
    (data : String) :
    (∀ enc nl, write st data enc nl none =
      (st, .ok (writeBuffer data enc nl).length)) ∧
    (writeBuffer data .utf8 true).length = (utf8Encode data).length + 1 ∧
    ((∀ c ∈ data.toList, (hexDigitVal c).isSome) →
      (writeBuffer data .hex true).length =
        (writeBuffer data .hex false).length + 1) ∧
    writeBuffer data .base64 true = b64Decode (data ++ "\n") := by
  refine ⟨fun enc nl => by simp [write, h], ?_, ?_, rfl⟩
  · have hnl : utf8Encode "\n" = [10] := by decide
    simp [writeBuffer, writeRawString, bufferFrom, utf8Encode_append, hnl]
  · intro hall
    have h0a : ("0a" : String).toList = ['0', 'a'] := by decide
    simp only [writeBuffer, writeRawString, bufferFrom, hexDecode, if_true]
    rw [toList_append, h0a]
    exact hexDecodeList_append_newline data.toList hall

/-- Witness for C10 at concrete data: utf8 "hello", all-hex data
"48656c6c6f", and base64 data "aGVsbG8=". -/
theorem write_byte_count_witness :
    sessionOpen freshSession = true ∧
    write freshSession "hello" .utf8 true none =
      (freshSession, .ok (writeBuffer "hello" .utf8 true).length) ∧
    (writeBuffer "hello" .utf8 true).length = (utf8Encode "hello").length + 1 ∧
    (writeBuffer "48656c6c6f" .hex true).length =
      (writeBuffer "48656c6c6f" .hex false).length + 1 ∧
    writeBuffer "aGVsbG8=" .base64 true = b64Decode ("aGVsbG8=" ++ "\n") :=
  ⟨by decide,
   (write_byte_count freshSession (by decide) "hello").1 .utf8 true,
   (write_byte_count freshSession (by decide) "hello").2.1,
   (write_byte_count freshSession (by decide) "48656c6c6f").2.2.1 (by decide),
   (write_byte_count freshSession (by decide) "aGVsbG8=").2.2.2⟩

/-- Claim C4 counterexample: `writeRegister` parses its arguments before
reaching the unconditional unsupported-operation throw, so a malformed
`addr` fails with the invalid-argument error, not the
unsupported-operation one. -/
theorem writeRegister_invalid_arg_cex :
    writeRegister (.str "zz") (.str "0") =
      .error (.invalidArg "addr is not a valid number") ∧
    isUnsupportedErr (writeRegister (.str "zz") (.str "0")) = false := by
  decide

/-- Claim C4 amended: `writeRegister` always fails — it never returns a
success for any input and (its model takes and returns no state) mutates
nothing — and the failure is the unsupported-operation error exactly when
both `addr` and `value` parse; otherwise it is the invalid-argument error
of the failing parse. -/
theorem writeRegister_always_fails (addr value : JsVal) :
    (∀ u : Unit, writeRegister addr value ≠ .ok u) ∧
    (∀ a v : Nat, parseIntHexOrDec addr "addr" = .ok a →
      parseIntHexOrDec value "value" = .ok v →
      writeRegister addr value =
        .error (.unsupported "writeRegister via CLI is not directly supported without GDB scripting. Use debug session + GDB to set memory.")) ∧
    (∀ e, parseIntHexOrDec addr "addr" = .error e →
      writeRegister addr value = .error e) := by
  refine ⟨?_, ?_, ?_⟩
  · intro u h
    cases hA : parseIntHexOrDec addr "addr" with
    | error e => simp [writeRegister, hA] at h
    | ok a =>
      cases hV : parseIntHexOrDec value "value" with
      | error e => simp [writeRegister, hA, hV] at h
      | ok v => simp [writeRegister, hA, hV] at h
  · intro a v hA hV
    simp [writeRegister, hA, hV]
  · intro e hA
    simp [writeRegister, hA]

/-- Witness for C4 at well-formed arguments: both parse, and the failure is
the unsupported-operation error. -/
theorem writeRegister_always_fails_witness :
    parseIntHexOrDec (.str "0x10") "addr" = .ok 16 ∧
    parseIntHexOrDec (.str "5") "value" = .ok 5 ∧
    writeRegister (.str "0x10") (.str "5") =
      .error (.unsupported "writeRegister via CLI is not directly supported without GDB scripting. Use debug session + GDB to set memory.") :=
  ⟨by decide, by decide,
   (writeRegister_always_fails (.str "0x10") (.str "5")).2.1 16 5
     (by decide) (by decide)⟩

/-- Claim C9 counterexample: for `flashFirmware` the numeric-string parse
happens inside the tool-availability branch; with no flasher tool
installed an unparseable `addr` fails with the tool-not-found error, not
an invalid-argument error. -/
theorem flashFirmware_parse_no_tool_cex :
    (if jsStartsWith (jsToLower (jsTrim "zz")) "0x" then jsParseInt "zz" 16
     else jsParseInt "zz" 10) = none ∧
    (flashFirmware (some "app.bin") (some (.str "zz")) ⟨false, false, false⟩
      (.success "" "")).1 ≠
      .error (.invalidArg "addr is not a valid number") ∧
    (flashFirmware (some "app.bin") (some (.str "zz")) ⟨false, false, false⟩
      (.success "" "")).1 =
      .error (.toolNotFound "No ST-Link flasher tool available (st-flash, ST-LINK_CLI.exe, or STM32_Programmer_CLI.exe).") := by
  decide

/-- Claim C9 amended: a numeric string argument is parsed as hexadecimal
exactly when its trimmed, lowercased form starts with "0x" and as decimal
otherwise; the parsed value is reduced modulo 2^32 (every successful parse
is below 2^32); a string parsing to no finite number fails the operation
with the invalid-argument error before the operation's tool command is
dispatched — for `readRegister` unconditionally, and for `flashFirmware`
provided a flasher tool is available (with none installed the failure is
the tool-not-found error instead, per the counterexample). -/
theorem parseIntHexOrDec_semantics :
    (∀ s name, jsStartsWith (jsToLower (jsTrim s)) "0x" = true →
      parseIntHexOrDec (.str s) name =
        (match jsParseInt s 16 with
         | none => .error (.invalidArg (name ++ " is not a valid number"))
         | some i => .ok (toUint32 i))) ∧
    (∀ s name, jsStartsWith (jsToLower (jsTrim s)) "0x" = false →
      parseIntHexOrDec (.str s) name =
        (match jsParseInt s 10 with
         | none => .error (.invalidArg (name ++ " is not a valid number"))
         | some i => .ok (toUint32 i))) ∧
    (∀ i : Int, (toUint32 i : Int) = i % 2 ^ 32 ∧ toUint32 i < 2 ^ 32) ∧
    (∀ v name n, parseIntHexOrDec v name = .ok n → n < 2 ^ 32) ∧
    (∀ p tools outcome s, p ≠ "" → tools.stFlash = true →
      (if jsStartsWith (jsToLower (jsTrim s)) "0x" then jsParseInt s 16
       else jsParseInt s 10) = none →
      flashFirmware (some p) (some (.str s)) tools outcome =
        (.error (.invalidArg "addr is not a valid number"), [])) ∧
    (∀ s lenV tools tmp outcome dumped,
      (if jsStartsWith (jsToLower (jsTrim s)) "0x" then jsParseInt s 16
       else jsParseInt s 10) = none →
      readRegister (.str s) lenV tools tmp outcome dumped =
        (.error (.invalidArg "addr is not a valid number"), [])) := by
  have hmod : ∀ i : Int, (toUint32 i : Int) = i % 2 ^ 32 ∧ toUint32 i < 2 ^ 32 := by
    intro i
    have h0 : (0 : Int) ≤ i % 2 ^ 32 := Int.emod_nonneg i (by norm_num)
    have h1 : i % 2 ^ 32 < 2 ^ 32 := Int.emod_lt_of_pos i (by norm_num)
    constructor
    · simpa [toUint32] using Int.toNat_of_nonneg h0
    · simp only [toUint32]
      omega
  refine ⟨?_, ?_, hmod, ?_, ?_, ?_⟩
  · intro s name h
    simp [parseIntHexOrDec, h]
  · intro s name h
    simp [parseIntHexOrDec, h]
  · intro v name n hok
    cases v with
    | num i =>
      simp only [parseIntHexOrDec, Except.ok.injEq] at hok
      subst hok
      exact (hmod i).2
    | str s =>
      simp only [parseIntHexOrDec] at hok
      cases hr : (if jsStartsWith (jsToLower (jsTrim s)) "0x" then jsParseInt s 16
          else jsParseInt s 10) with
      | none => rw [hr] at hok; simp at hok
      | some i =>
        rw [hr] at hok
        simp only [Except.ok.injEq] at hok
        subst hok
        exact (hmod i).2
    | other => simp [parseIntHexOrDec] at hok
  · intro p tools outcome s hp hfl hnone
    simp [flashFirmware, hp, hfl, parseIntHexOrDec, hnone]
  · intro s lenV tools tmp outcome dumped hnone
    simp [readRegister, parseIntHexOrDec, hnone]

/-- Witness for C9: hex selection on " 0X1a " (26), decimal on "26" (26),
and for unparseable "zz" with st-flash available, `flashFirmware` fails
with the invalid-argument error and dispatches no command. -/
theorem parseIntHexOrDec_semantics_witness :
    flashFirmware (some "app.bin") (some (.str "zz")) ⟨true, false, false⟩
      (.success "" "") = (.error (.invalidArg "addr is not a valid number"), []) ∧
    parseIntHexOrDec (.str " 0X1a ") "addr" = .ok 26 ∧
    parseIntHexOrDec (.str "26") "addr" = .ok 26 :=
  ⟨parseIntHexOrDec_semantics.2.2.2.2.1 "app.bin" ⟨true, false, false⟩
     (.success "" "") "zz" (by decide) rfl (by decide),
   by decide, by decide⟩

/-- Claim C3 counterexample: `stlink.flashFirmware` with `st-flash`
available dispatches the write command and, when the process exits
non-zero, throws an error wrapping the captured output rather than
returning an `ok:false` result. -/
theorem flashFirmware_nonzero_exit_throws_cex :
    (flashFirmware (some "app.bin") (some (.str "0x08000000"))
      ⟨true, false, false⟩ (.failure "" "flash write failed" "Command failed")).1 =
      .error (.toolFailed "st-flash failed: flash write failed") ∧
    (flashFirmware (some "app.bin") (some (.str "0x08000000"))
      ⟨true, false, false⟩ (.failure "" "flash write failed" "Command failed")).2 =
      [("st-flash", ["write", "app.bin", "0x8000000"])] := by
  decide

/-- Claim C3 amended: for `compile`, `gitCommit` and `gitDiff` a spawned
tool that exits non-zero yields an `ok:false` result carrying the captured
stdout/stderr and nothing is thrown; `probe.flashFirmware` and
`probe.resetDevice`, by contrast, throw an error wrapping the captured
output for that same outcome. -/
theorem oneshot_nonzero_exit (out err msg : String) (target cwd : String)
    (cube : Option String) (m p : String) (hm : m ≠ "") (hp : p ≠ "")
    (tools : StTools) (hfl : tools.stFlash = true) :
    compile target cwd .make none cube (.failure out err msg) =
      .ok ⟨false, "make", jsTrim ("make " ++ target), cwd, out,
           if err ≠ "" then err else msg⟩ ∧
    gitCommit (some m) (.failure out err msg) =
      .ok ⟨false, out, if err ≠ "" then err else msg⟩ ∧
    gitDiff (.failure out err msg) = ⟨false, out, if err ≠ "" then err else msg⟩ ∧
    (flashFirmware (some p) none tools (.failure out err msg)).1 =
      .error (.toolFailed ("st-flash failed: " ++ pickErrMsg out err msg)) ∧
    resetDevice tools (.failure out err msg) =
      .error (.toolFailed ("st-flash reset failed: " ++ pickErrMsg out err msg)) := by
  refine ⟨rfl, ?_, rfl, ?_, ?_⟩
  · simp [gitCommit, hm]
  · simp [flashFirmware, hp, hfl]
  · simp [resetDevice, hfl]

/-- Witness for C3 at a make target, a commit message and a firmware
image, with a tool exiting non-zero with stderr "boom". -/
theorem oneshot_nonzero_exit_witness :
    gitCommit (some "fix") (.failure "" "boom" "Command failed") =
      .ok ⟨false, "", "boom"⟩ ∧
    compile "all" "/proj" .make none none (.failure "" "boom" "Command failed") =
      .ok ⟨false, "make", "make all", "/proj", "", "boom"⟩ ∧
    (flashFirmware (some "app.bin") none ⟨true, false, false⟩
      (.failure "" "boom" "Command failed")).1 =
      .error (.toolFailed "st-flash failed: boom") := by
  have h := oneshot_nonzero_exit "" "boom" "Command failed" "all" "/proj" none
    "fix" "app.bin" (by decide) (by decide) ⟨true, false, false⟩ rfl
  exact ⟨h.2.1.trans (by decide), h.1.trans (by decide),
    h.2.2.2.1.trans (by decide)⟩

/-- Claim C1 counterexample: the `startDebug` guard only engages once the
slot variable is set by the ready-phrase observation; while the slot is
still `Starting` (spawned, ready not yet observed) a second `startDebug`
entry spawns a second child process, so two live server processes of the
same backend kind coexist. -/
theorem startDebug_starting_not_guarded_cex :
    (startDebugEntry initDebug 4242 true).1.stUtilProc = none ∧
    (startDebugEntry initDebug 4242 true).1.starting ≠ [] ∧
    (startDebugEntry (startDebugEntry initDebug 4242 true).1 4242 true).2 =
      .spawned 1 ∧
    (startDebugEntry (startDebugEntry initDebug 4242 true).1 4242 true).1.live =
      [0, 1] := by
  decide

/-- Claim C1 amended: calling `startDebug` while the slot is `Running`
(the ready phrase has been observed and the slot variable set) is a no-op
returning the already-running confirmation and spawning nothing; in
particular two sequential `startDebug` calls with the first completed
successfully return "already running" on the second call, and exactly one
live server process exists.  (While the slot is only `Starting` the guard
does not engage, per the counterexample.) -/
theorem startDebug_running_guard (st : DebugState) (p : Nat)
    (h : st.stUtilProc = some p) :
    (∀ port toolOk, startDebugEntry st port toolOk =
      (st, .alreadyRunning ("st-util already running on :" ++
        toString st.gdbPort))) ∧
    (∀ port1 port2 tool2,
      (startDebugEntry (readyEvent (startDebugEntry initDebug port1 true).1 0)
          port2 tool2).1 =
        readyEvent (startDebugEntry initDebug port1 true).1 0 ∧
      (∃ msg,
        (startDebugEntry (readyEvent (startDebugEntry initDebug port1 true).1 0)
            port2 tool2).2 = .alreadyRunning msg) ∧
      (readyEvent (startDebugEntry initDebug port1 true).1 0).live = [0]) := by
  constructor
  · intro port toolOk
    simp [startDebugEntry, h]
  · intro port1 port2 tool2
    have h1 : (startDebugEntry initDebug port1 true).1 =
        ⟨none, if port1 = 0 then 4242 else port1, [0], [0], 1⟩ := by
      simp [startDebugEntry, initDebug]
    have h2 : readyEvent (startDebugEntry initDebug port1 true).1 0 =
        ⟨some 0, if port1 = 0 then 4242 else port1, [], [0], 1⟩ := by
      rw [h1]
      simp [readyEvent]
    rw [h2]
    exact ⟨by simp [startDebugEntry],
      ⟨"st-util already running on :" ++ toString (if port1 = 0 then 4242 else port1),
       by simp [startDebugEntry]⟩, rfl⟩

/-- Witness for C1 with the slot `Running` on pid 0 at port 4242. -/
theorem startDebug_running_guard_witness :
    startDebugEntry (⟨some 0, 4242, [], [0], 1⟩ : DebugState) 5555 true =
      ((⟨some 0, 4242, [], [0], 1⟩ : DebugState),
       .alreadyRunning ("st-util already running on :" ++
         toString (4242 : Nat))) :=
  (startDebug_running_guard ⟨some 0, 4242, [], [0], 1⟩ 0 rfl).1 5555 true
